import Mathlib

/-
Verification development for the claude-discord-bridge session-management core.

Shallow embedding of three Python modules:
  src/session_manager.py  (SessionManager: channel-to-session registry)
  src/tmux_manager.py     (TmuxManager: tmux-backed process session controller)
  src/auto_recovery.py    (RecoveryStrategy / AutoRecoverySystem)

Modelling conventions:
  - Python dicts become association lists with unique keys; a fresh key is
    appended at the end (dict insertion order), an existing key is updated
    in place.
  - Session ids are Nat.  The mapping file serializes ids as decimal
    strings and parses them back with isdigit/int, a bijection on Nat, so
    the on-disk mapping is modelled with Nat keys directly.
  - Wall-clock timestamp bookkeeping (created_at, last_checked, sleeps and
    backoff waits) is either abstracted into an explicit `now` argument or
    dropped when no claim depends on it.
  - Subprocess calls to the tmux binary are nondeterministic in reality;
    they are modelled by an explicit environment (`TmuxEnv`) saying whether
    each kill / creation succeeds and whether a freshly created session
    dies before its health check, plus a `world : List Nat` holding the
    session ids that currently have a live tmux session.
  - A raised Python exception becomes an error value in the result; the
    state component of the result is the state the object is left in when
    the exception propagates to the caller.
-/

namespace Bridge

/-! ### Association-list primitives (Python dict model) -/

/-- First value bound to key `k`, searching from the front (dict lookup). -/
def alookup {α β : Type} [DecidableEq α] (k : α) : List (α × β) → Option β
  | [] => none
  | (k', v) :: rest => if k' = k then some v else alookup k rest

/-- Remove every pair with key `k` (dict `del`; with unique keys this is
the single entry). -/
def aerase {α β : Type} [DecidableEq α] (k : α) (l : List (α × β)) : List (α × β) :=
  l.filter (fun p => p.1 ≠ k)

/-- Apply `f` to the value at key `k`, keeping its position (in-place
mutation of a dict value). No-op when the key is absent. -/
def aupdate {α β : Type} [DecidableEq α] (k : α) (f : β → β) (l : List (α × β)) :
    List (α × β) :=
  l.map (fun p => if p.1 = k then (p.1, f p.2) else p)

/-- Dict assignment `d[k] = v`: overwrite in place when present, append
when absent. -/
def aset {α β : Type} [DecidableEq α] (k : α) (v : β) (l : List (α × β)) :
    List (α × β) :=
  if (alookup k l).isSome then aupdate k (fun _ => v) l else l ++ [(k, v)]

/-- Keys of an association list, in order. -/
def akeys {α β : Type} (l : List (α × β)) : List α :=
  l.map Prod.fst

/-! ### SessionManager (src/session_manager.py) -/

/-- SessionInfo dataclass of session_manager.py. -/
structure SessionInfo where
  session_id : Nat
  channel_id : String
  created_at : String
  status : String
  last_health_check : Option String
deriving DecidableEq

/-- In-memory state of a SessionManager plus the sessions.json image the
SettingsManager would hold on disk. `sessions_cache` keys are session ids,
`channel_map` keys are channel ids. -/
structure SMState where
  sessions_cache : List (Nat × SessionInfo)
  channel_map : List (String × Nat)
  disk : List (Nat × String)
deriving DecidableEq

/-- The state of a freshly constructed manager when sessions.json is empty. -/
def SMState.empty : SMState := ⟨[], [], []⟩

/-- Result of `add_session`: the returned id, or the raised
SessionManagerError (duplicate-channel message or save-failure message). -/
inductive AddResult where
  | ok (session_id : Nat)
  | duplicateChannel (channel_id : String) (existing_session : Nat)
  | saveFailed
deriving DecidableEq

/-- `max(existing_session_ids)` of session_manager.py line 206, as a fold
(0 on the empty list, which the caller guards against). -/
def maxKey {β : Type} (l : List (Nat × β)) : Nat :=
  l.foldr (fun p m => max p.1 m) 0

/-- SessionManager._save_sessions, lines 114-135: the dict written to
sessions.json keeps only entries whose status is "active", mapping the
session id to its channel id. -/
def saveImage (cache : List (Nat × SessionInfo)) : List (Nat × String) :=
  (cache.filter (fun p => p.2.status = "active")).map (fun p => (p.1, p.2.channel_id))

/--
SessionManager.add_session, lines 174-233. `saveOk` says whether the
settings.save_sessions write succeeds; when it fails, _save_sessions
raises SessionManagerError, which add_session re-raises through its
`except SessionManagerError: raise` branch BEFORE the rollback handler
(`except Exception`), so the mutated caches stay in place (the backup
dicts of lines 201-202 are only restored for non-SessionManagerError
exceptions, and _save_sessions never raises one of those).
-/
def add_session (saveOk : Bool) (now : String) (st : SMState) (channel_id : String) :
    SMState × AddResult :=
  match alookup channel_id st.channel_map with
  | some existing => (st, .duplicateChannel channel_id existing)
  | none =>
    let new_session_id :=
      if st.sessions_cache = [] then 1 else maxKey st.sessions_cache + 1
    let info : SessionInfo :=
      ⟨new_session_id, channel_id, now, "active", none⟩
    let st' : SMState :=
      { st with
        sessions_cache := st.sessions_cache ++ [(new_session_id, info)]
        channel_map := st.channel_map ++ [(channel_id, new_session_id)] }
    if saveOk then
      ({ st' with disk := saveImage st'.sessions_cache }, .ok new_session_id)
    else
      (st', .saveFailed)

/--
SessionManager.remove_session, lines 235-275. Returns false when the id
is unknown. On save failure the `except Exception` handler restores the
backup dicts, so the pre-mutation state is returned with false.
-/
def remove_session (saveOk : Bool) (st : SMState) (session_id : Nat) : SMState × Bool :=
  match alookup session_id st.sessions_cache with
  | none => (st, false)
  | some info =>
    let st' : SMState :=
      { st with
        channel_map := aerase info.channel_id st.channel_map
        sessions_cache := aerase session_id st.sessions_cache }
    if saveOk then
      ({ st' with disk := saveImage st'.sessions_cache }, true)
    else
      (st, false)

/-- SessionManager.update_session_health, lines 298-311: stamps the health
check and flips status to "active" or "error"; no-op on unknown ids. -/
def update_session_health (now : String) (st : SMState) (session_id : Nat)
    (is_healthy : Bool) : SMState :=
  { st with
    sessions_cache :=
      aupdate session_id
        (fun i =>
          { i with
            last_health_check := some now
            status := if is_healthy then "active" else "error" })
        st.sessions_cache }

/-- SessionManager._load_sessions, lines 76-112: rebuild both caches from
the on-disk mapping; every loaded entry gets status "active" and a fresh
created_at. -/
def load_sessions (now : String) (disk : List (Nat × String)) : SMState :=
  { sessions_cache :=
      disk.map (fun p => (p.1, ⟨p.1, p.2, now, "active", none⟩))
    channel_map := disk.map (fun p => (p.2, p.1))
    disk := disk }

/-- SessionManager.is_session_active, lines 322-334. -/
def is_session_active (st : SMState) (session_id : Nat) : Bool :=
  match alookup session_id st.sessions_cache with
  | some i => i.status = "active"
  | none => false

/-! ### RecoveryStrategy (src/auto_recovery.py, lines 61-88) -/

def MAX_RETRY_ATTEMPTS : Nat := 3

def BASE_BACKOFF_SECONDS : Nat := 1

def MAX_BACKOFF_SECONDS : Nat := 60

/-- RecoveryStrategy.get_backoff_time, lines 76-88 (the Python value is a
float with an integral value). -/
def get_backoff_time (attempt : Nat) : Nat :=
  min (BASE_BACKOFF_SECONDS * 2 ^ (attempt - 1)) MAX_BACKOFF_SECONDS

/-! ### TmuxManager (src/tmux_manager.py) -/

def DEFAULT_CLAUDE_OPTIONS : String := "--dangerously-skip-permissions"

/-- Fallback work_dir of tmux_manager.py line 488. -/
def RECOVER_FALLBACK_WORK_DIR : String := "/workspaces/002--claude-test"

/-- One value of the TmuxManager.sessions_cache dict. The Python value is
a plain dict; the keys it may carry are modelled as fields, with Option
for keys that may be absent (dict.get with a None-like default) and Nat 0
for the counters read through dict.get(key, 0). -/
structure TmuxInfo where
  status : String
  work_dir : Option String
  options : Option String
  recovery_count : Nat
  recovery_attempt : Nat
  recovery_attempts : Nat
deriving DecidableEq

/-- TmuxManager state: the sessions_cache dict plus the external tmux
server, modelled as the list of session ids that currently have a live
claude-session-(id) tmux session. -/
structure TmuxState where
  cache : List (Nat × TmuxInfo)
  world : List Nat
deriving DecidableEq

/-- Outcome of the tmux subprocess calls a recovery makes, per attempt
number: whether a kill-session succeeds, whether the new-session of the
k-th creation attempt succeeds, and whether the created session dies
before the health check of attempt k (external nondeterminism). -/
structure TmuxEnv where
  killOk : Bool
  createOk : Nat → Bool
  dies : Nat → Bool

/-- Remove a session id from the live tmux session list. -/
def werase (sid : Nat) (w : List Nat) : List Nat :=
  w.filter (fun x => x ≠ sid)

/-- Flip a cached status to "stopped" (tmux_manager.py lines 284-285 and
315-316). -/
def markStopped (i : TmuxInfo) : TmuxInfo :=
  { i with status := "stopped" }

/-- TmuxManager.is_claude_session_exists, lines 263-290: queries tmux for
the derived session name; when the session is absent, a cached entry has
its status flipped to "stopped" (the last_checked stamp is abstracted
away). -/
def is_claude_session_exists (st : TmuxState) (sid : Nat) : TmuxState × Bool :=
  if sid ∈ st.world then
    (st, true)
  else
    ({ st with cache := aupdate sid markStopped st.cache }, false)

/-- TmuxManager.kill_claude_session, lines 292-324: true immediately when
the session is already absent; otherwise the tmux kill-session call either
succeeds (session gone, cached status "stopped", true) or fails (state
unchanged, false). -/
def kill_claude_session (env : TmuxEnv) (st : TmuxState) (sid : Nat) :
    TmuxState × Bool :=
  let r := is_claude_session_exists st sid
  if r.2 = false then
    (r.1, true)
  else if env.killOk then
    ({ cache := aupdate sid markStopped r.1.cache
       world := werase sid r.1.world }, true)
  else
    (r.1, false)

/-- TmuxManager.create_claude_session, lines 209-261, with `k` the index
used to look up this creation attempt in the environment: no-op success
when the session already exists; otherwise the tmux new-session call
either succeeds (the session becomes live and the cache entry is REPLACED
by a fresh dict with status "active", the given work_dir/options and no
recovery counters) or fails with false and no state change. -/
def create_claude_session (env : TmuxEnv) (k : Nat) (st : TmuxState) (sid : Nat)
    (work_dir opts : String) : TmuxState × Bool :=
  let r := is_claude_session_exists st sid
  if r.2 then
    (r.1, true)
  else if env.createOk k then
    ({ cache := aset sid ⟨"active", some work_dir, some opts, 0, 0, 0⟩ r.1.cache
       world := r.1.world ++ [sid] }, true)
  else
    (r.1, false)

/-- TmuxManager.check_session_health, lines 435-456: existence check, then
the cached status is set to "active" or "error" accordingly. -/
def tmux_check_session_health (st : TmuxState) (sid : Nat) : TmuxState × Bool :=
  let r := is_claude_session_exists st sid
  ({ r.1 with
     cache :=
       aupdate sid (fun i => { i with status := if r.2 then "active" else "error" })
         r.1.cache },
   r.2)

/-- How the retry loop of TmuxManager.recover_session ends: a successful
attempt, the in-loop `return False` when the cache has no entry for the
session, or exhaustion of all attempts. -/
inductive LoopOutcome where
  | success
  | noCache
  | exhausted
deriving DecidableEq

/--
The retry loop of TmuxManager.recover_session, lines 478-518: `attempt`
is the python loop variable, `remaining` the number of iterations left.
Returns the final state, how the loop ended, and the number of
create_claude_session invocations made. The 2-second inter-attempt sleep
is abstracted away; the `except Exception` in the body cannot fire in
this pure model.
-/
def recoverLoop (env : TmuxEnv) (sid : Nat) :
    Nat → Nat → TmuxState → TmuxState × LoopOutcome × Nat
  | _, 0, st => (st, .exhausted, 0)
  | attempt, remaining + 1, st =>
    match alookup sid st.cache with
    | none => (st, .noCache, 0)
    | some info =>
      let wd := info.work_dir.getD RECOVER_FALLBACK_WORK_DIR
      let opts := info.options.getD DEFAULT_CLAUDE_OPTIONS
      let c := create_claude_session env attempt st sid wd opts
      if c.2 then
        let st2 :=
          if env.dies attempt then { c.1 with world := werase sid c.1.world } else c.1
        let h := tmux_check_session_health st2 sid
        if h.2 then
          let st4 :=
            { h.1 with
              cache :=
                aupdate sid
                  (fun i =>
                    { i with
                      status := "recovered"
                      recovery_count := i.recovery_count + 1
                      recovery_attempt := attempt })
                  h.1.cache }
          (st4, .success, 1)
        else
          let r := recoverLoop env sid (attempt + 1) remaining h.1
          (r.1, r.2.1, r.2.2 + 1)
      else
        let r := recoverLoop env sid (attempt + 1) remaining c.1
        (r.1, r.2.1, r.2.2 + 1)

/--
TmuxManager.recover_session, lines 458-529: best-effort kill of any
existing session first (result ignored), then the retry loop for
max_retries attempts; when the loop exhausts, a cached entry is marked
status "recovery_failed" with recovery_attempts = max_retries. Returns
(final state, success flag, number of creation attempts made).
-/
def tmux_recover_session (env : TmuxEnv) (st : TmuxState) (sid : Nat)
    (max_retries : Nat) : TmuxState × Bool × Nat :=
  let k := kill_claude_session env st sid
  let r := recoverLoop env sid 1 max_retries k.1
  match r.2.1 with
  | .success => (r.1, true, r.2.2)
  | .noCache => (r.1, false, r.2.2)
  | .exhausted =>
    ({ r.1 with
       cache :=
         aupdate sid
           (fun i => { i with status := "recovery_failed", recovery_attempts := max_retries })
           r.1.cache },
     false, r.2.2)

/-! ### AutoRecoverySystem (src/auto_recovery.py) -/

/-- RecoveryAttempt dataclass, lines 51-59 (timestamp and duration are
wall-clock bookkeeping, abstracted away). -/
structure RecoveryAttempt where
  session_id : Nat
  attempt_number : Nat
  success : Bool
  error_message : Option String
deriving DecidableEq

/-- A call to _notify_recovery_success / _notify_recovery_failure, lines
277-291. The notifier is external and best-effort; emitting is modelled
as recording the call. -/
inductive Notification where
  | recoverySuccess (sid : Nat)
  | recoveryFailure (sid : Nat) (err : Option String)
deriving DecidableEq

/-- State of an AutoRecoverySystem: its TmuxManager, its SessionManager,
the recovery_counts dict, the in-memory recovery_history list (the
history file write of _save_recovery_history is external output and not
modelled) and the notifications emitted so far. -/
structure ARState where
  tmux : TmuxState
  registry : SMState
  recovery_counts : List (Nat × Nat)
  recovery_history : List RecoveryAttempt
  notifications : List Notification
deriving DecidableEq

/-- AutoRecoverySystem.check_session_health, lines 167-195: healthy iff
the tmux session exists AND the registry marks the session active; the
existence query mutates the tmux cache as usual. -/
def ar_check_session_health (st : ARState) (sid : Nat) : ARState × Bool :=
  let e := is_claude_session_exists st.tmux sid
  if e.2 = false then
    ({ st with tmux := e.1 }, false)
  else if is_session_active st.registry sid = false then
    ({ st with tmux := e.1 }, false)
  else
    ({ st with tmux := e.1 }, true)

/-- Failure tail of AutoRecoverySystem.recover_session, lines 254-273 for
an unsuccessful attempt: append the failed RecoveryAttempt record, store
the attempt count back into recovery_counts, and emit exactly one failure
notification when the count has reached MAX_RETRY_ATTEMPTS. -/
def arFailTail (st : ARState) (sid attempt_count : Nat) (err : Option String) : ARState :=
  let st1 :=
    { st with
      recovery_history :=
        st.recovery_history ++ [(⟨sid, attempt_count, false, err⟩ : RecoveryAttempt)] }
  let st2 := { st1 with recovery_counts := aset sid attempt_count st1.recovery_counts }
  if MAX_RETRY_ATTEMPTS ≤ attempt_count then
    { st2 with notifications := st2.notifications ++ [.recoveryFailure sid err] }
  else
    st2

/--
AutoRecoverySystem.recover_session, lines 197-275. `k` indexes this
invocation in the environment (one creation attempt per invocation);
`work_dir` and `opts` are the settings values read at lines 234-235.
Flow: compute attempt_count from recovery_counts; bail out with a failure
notification when it exceeds MAX_RETRY_ATTEMPTS; otherwise (backoff wait
abstracted) kill any live session, try to create a new one, re-check
health, append the RecoveryAttempt record, and either reset the counter
and notify success, or run the failure tail.
-/
def ar_recover_session (env : Nat → TmuxEnv) (k : Nat) (work_dir opts : String)
    (st : ARState) (sid : Nat) : ARState × Bool :=
  let attempt_count := (alookup sid st.recovery_counts).getD 0 + 1
  if MAX_RETRY_ATTEMPTS < attempt_count then
    ({ st with
       notifications :=
         st.notifications ++ [.recoveryFailure sid (some "Max attempts exceeded")] },
     false)
  else
    let g := is_claude_session_exists st.tmux sid
    let tmA := if g.2 then (kill_claude_session (env k) g.1 sid).1 else g.1
    let c := create_claude_session (env k) k tmA sid work_dir opts
    if c.2 then
      let tmB := if (env k).dies k then { c.1 with world := werase sid c.1.world } else c.1
      let h := ar_check_session_health { st with tmux := tmB } sid
      if h.2 then
        let stS := { h.1 with recovery_counts := aset sid 0 h.1.recovery_counts }
        ({ stS with
           recovery_history :=
             stS.recovery_history ++ [(⟨sid, attempt_count, true, none⟩ : RecoveryAttempt)]
           notifications := stS.notifications ++ [.recoverySuccess sid] },
         true)
      else
        (arFailTail h.1 sid attempt_count (some "Health check failed after recovery"), false)
    else
      (arFailTail { st with tmux := c.1 } sid attempt_count
        (some "Failed to create new tmux session"), false)

/-- Three consecutive invocations of AutoRecoverySystem.recover_session
for one session (the invocation chain of spec scenario 4). -/
def ar_recover_chain3 (env : Nat → TmuxEnv) (work_dir opts : String)
    (st : ARState) (sid : Nat) : ARState :=
  let s1 := (ar_recover_session env 1 work_dir opts st sid).1
  let s2 := (ar_recover_session env 2 work_dir opts s1 sid).1
  (ar_recover_session env 3 work_dir opts s2 sid).1

/-- Count of failure notifications among those emitted. -/
def countFailureNotifications (l : List Notification) : Nat :=
  (l.filter (fun n =>
    match n with
    | .recoveryFailure _ _ => true
    | _ => false)).length

/-! ### Harness for quantifying over registry histories -/

/-- One mutating SessionManager call, with the persistence outcome of its
save step. -/
inductive RegistryOp where
  | addOp (channel_id : String) (saveOk : Bool)
  | removeOp (session_id : Nat) (saveOk : Bool)

/-- Apply one registry operation, keeping the state the manager object is
left in (also when the call raised or returned false). -/
def applyOp (now : String) (st : SMState) : RegistryOp → SMState
  | .addOp ch saveOk => (add_session saveOk now st ch).1
  | .removeOp sid saveOk => (remove_session saveOk st sid).1

/-- State after a finite history of add/remove calls starting from the
empty registry. -/
def runOps (now : String) (ops : List RegistryOp) : SMState :=
  ops.foldl (applyOp now) SMState.empty

/-- Internal consistency of a registry state: session ids are pairwise
distinct, and the channel of every cached entry maps back to that entry
through channel_map. -/
def RegistryInv (st : SMState) : Prop :=
  (akeys st.sessions_cache).Nodup ∧
  ∀ p ∈ st.sessions_cache, alookup p.2.channel_id st.channel_map = some p.1

/-! ### Association-list lemmas -/

theorem alookup_cons_self {α β : Type} [DecidableEq α] (k : α) (b : β)
    (t : List (α × β)) : alookup k ((k, b) :: t) = some b := by
  rw [alookup, if_pos rfl]

theorem alookup_cons_ne {α β : Type} [DecidableEq α] {k a : α} (b : β)
    (t : List (α × β)) (h : a ≠ k) : alookup k ((a, b) :: t) = alookup k t := by
  rw [alookup, if_neg h]

theorem aupdate_cons_self {α β : Type} [DecidableEq α] (k : α) (f : β → β)
    (b : β) (t : List (α × β)) :
    aupdate k f ((k, b) :: t) = (k, f b) :: aupdate k f t := by
  rw [aupdate, List.map_cons, if_pos rfl]
  rfl

theorem aupdate_cons_ne {α β : Type} [DecidableEq α] {k a : α} (f : β → β)
    (b : β) (t : List (α × β)) (h : a ≠ k) :
    aupdate k f ((a, b) :: t) = (a, b) :: aupdate k f t := by
  rw [aupdate, List.map_cons, if_neg h]
  rfl

theorem aerase_cons_self {α β : Type} [DecidableEq α] (k : α) (b : β)
    (t : List (α × β)) : aerase k ((k, b) :: t) = aerase k t := by
  rw [aerase, List.filter_cons]
  simp [aerase]

theorem aerase_cons_ne {α β : Type} [DecidableEq α] {k a : α} (b : β)
    (t : List (α × β)) (h : a ≠ k) :
    aerase k ((a, b) :: t) = (a, b) :: aerase k t := by
  rw [aerase, List.filter_cons]
  simp [aerase, h]

theorem alookup_append_of_some {α β : Type} [DecidableEq α] {k : α} {v : β}
    {l₁ l₂ : List (α × β)} (h : alookup k l₁ = some v) :
    alookup k (l₁ ++ l₂) = some v := by
  induction l₁ with
  | nil => simp [alookup] at h
  | cons p t ih =>
    rw [List.cons_append]
    rw [alookup] at h ⊢
    by_cases hp : p.1 = k
    · simpa [hp] using h
    · rw [if_neg hp] at h ⊢
      exact ih h

theorem alookup_append_of_none {α β : Type} [DecidableEq α] {k : α}
    {l₁ l₂ : List (α × β)} (h : alookup k l₁ = none) :
    alookup k (l₁ ++ l₂) = alookup k l₂ := by
  induction l₁ with
  | nil => simp
  | cons p t ih =>
    rw [List.cons_append]
    rw [alookup] at h ⊢
    by_cases hp : p.1 = k
    · simp [hp] at h
    · rw [if_neg hp] at h ⊢
      exact ih h

theorem alookup_aupdate_self {α β : Type} [DecidableEq α] (k : α) (f : β → β)
    (l : List (α × β)) : alookup k (aupdate k f l) = (alookup k l).map f := by
  induction l with
  | nil => rfl
  | cons p t ih =>
    obtain ⟨a, b⟩ := p
    by_cases hp : a = k
    · subst hp
      rw [aupdate_cons_self, alookup_cons_self, alookup_cons_self]
      rfl
    · rw [aupdate_cons_ne f b t hp, alookup_cons_ne _ _ hp, alookup_cons_ne _ _ hp]
      exact ih

theorem alookup_aupdate_ne {α β : Type} [DecidableEq α] {k k' : α} (f : β → β)
    (l : List (α × β)) (h : k' ≠ k) :
    alookup k (aupdate k' f l) = alookup k l := by
  induction l with
  | nil => rfl
  | cons p t ih =>
    obtain ⟨a, b⟩ := p
    by_cases hp : a = k'
    · subst hp
      rw [aupdate_cons_self, alookup_cons_ne _ _ h, alookup_cons_ne _ _ h]
      exact ih
    · rw [aupdate_cons_ne f b t hp]
      by_cases hk : a = k
      · subst hk
        rw [alookup_cons_self, alookup_cons_self]
      · rw [alookup_cons_ne _ _ hk, alookup_cons_ne _ _ hk]
        exact ih

theorem alookup_aerase_self {α β : Type} [DecidableEq α] (k : α)
    (l : List (α × β)) : alookup k (aerase k l) = none := by
  induction l with
  | nil => rfl
  | cons p t ih =>
    obtain ⟨a, b⟩ := p
    by_cases hp : a = k
    · subst hp
      rw [aerase_cons_self]
      exact ih
    · rw [aerase_cons_ne b t hp, alookup_cons_ne _ _ hp]
      exact ih

theorem alookup_aerase_ne {α β : Type} [DecidableEq α] {k k' : α}
    (l : List (α × β)) (h : k' ≠ k) :
    alookup k (aerase k' l) = alookup k l := by
  induction l with
  | nil => rfl
  | cons p t ih =>
    obtain ⟨a, b⟩ := p
    by_cases hp : a = k'
    · subst hp
      rw [aerase_cons_self, alookup_cons_ne _ _ h]
      exact ih
    · rw [aerase_cons_ne b t hp]
      by_cases hk : a = k
      · subst hk
        rw [alookup_cons_self, alookup_cons_self]
      · rw [alookup_cons_ne _ _ hk, alookup_cons_ne _ _ hk]
        exact ih

theorem alookup_aset_self {α β : Type} [DecidableEq α] (k : α) (v : β)
    (l : List (α × β)) : alookup k (aset k v l) = some v := by
  rw [aset]
  by_cases h : (alookup k l).isSome
  · rw [if_pos h, alookup_aupdate_self]
    obtain ⟨w, hw⟩ := Option.isSome_iff_exists.mp h
    rw [hw]
    rfl
  · rw [if_neg h]
    have hn : alookup k l = none := Option.not_isSome_iff_eq_none.mp h
    rw [alookup_append_of_none hn]
    simp [alookup]

theorem akeys_aupdate {α β : Type} [DecidableEq α] (k : α) (f : β → β)
    (l : List (α × β)) : akeys (aupdate k f l) = akeys l := by
  induction l with
  | nil => rfl
  | cons p t ih =>
    obtain ⟨a, b⟩ := p
    by_cases hp : a = k
    · subst hp
      rw [aupdate_cons_self, akeys, akeys, List.map_cons, List.map_cons]
      rw [akeys] at ih
      rw [ih]
      rfl
    · rw [aupdate_cons_ne f b t hp, akeys, akeys, List.map_cons, List.map_cons]
      rw [akeys] at ih
      rw [ih]
      rfl

theorem mem_of_alookup_eq_some {α β : Type} [DecidableEq α] {k : α} {v : β}
    {l : List (α × β)} (h : alookup k l = some v) : (k, v) ∈ l := by
  induction l with
  | nil => simp [alookup] at h
  | cons p t ih =>
    obtain ⟨a, b⟩ := p
    by_cases hp : a = k
    · subst hp
      rw [alookup, if_pos rfl] at h
      injection h with hbv
      subst hbv
      exact List.mem_cons_self _ _
    · rw [alookup, if_neg hp] at h
      exact List.mem_cons_of_mem _ (ih h)

theorem alookup_eq_none_of_not_mem_akeys {α β : Type} [DecidableEq α] {k : α}
    {l : List (α × β)} (h : k ∉ akeys l) : alookup k l = none := by
  induction l with
  | nil => rfl
  | cons p t ih =>
    rw [akeys, List.map_cons, List.mem_cons] at h
    push_neg at h
    rw [alookup, if_neg (fun he => h.1 he.symm)]
    exact ih h.2

theorem mem_aupdate {α β : Type} [DecidableEq α] {k : α} {f : β → β}
    {l : List (α × β)} {p : α × β} (h : p ∈ aupdate k f l) :
    (p.1 ≠ k ∧ p ∈ l) ∨ (p.1 = k ∧ ∃ v, (k, v) ∈ l ∧ p = (k, f v)) := by
  rw [aupdate] at h
  obtain ⟨q, hq, hqp⟩ := List.mem_map.mp h
  obtain ⟨a, b⟩ := q
  by_cases hk : a = k
  · subst hk
    right
    rw [if_pos rfl] at hqp
    refine ⟨by rw [← hqp], b, hq, hqp.symm⟩
  · left
    simp only [if_neg hk] at hqp
    rw [← hqp]
    exact ⟨hk, hq⟩

theorem mem_of_mem_aerase {α β : Type} [DecidableEq α] {k : α}
    {l : List (α × β)} {p : α × β} (h : p ∈ aerase k l) : p ∈ l ∧ p.1 ≠ k := by
  rw [aerase] at h
  have := List.mem_filter.mp h
  refine ⟨this.1, ?_⟩
  simpa using this.2

theorem akeys_aerase_sublist {α β : Type} [DecidableEq α] (k : α)
    (l : List (α × β)) : (akeys (aerase k l)).Sublist (akeys l) := by
  exact List.Sublist.map Prod.fst (List.filter_sublist l)

theorem le_maxKey {β : Type} {l : List (Nat × β)} {p : Nat × β} (h : p ∈ l) :
    p.1 ≤ maxKey l := by
  induction l with
  | nil => simp at h
  | cons q t ih =>
    rw [maxKey, List.foldr_cons]
    rcases List.mem_cons.mp h with h1 | h2
    · rw [h1]
      exact le_max_left _ _
    · exact le_trans (ih h2) (le_max_right _ _)

theorem maxKey_mem {β : Type} {l : List (Nat × β)} (h : l ≠ []) :
    ∃ p ∈ l, p.1 = maxKey l := by
  induction l with
  | nil => exact absurd rfl h
  | cons q t ih =>
    rw [maxKey, List.foldr_cons]
    by_cases ht : t = []
    · subst ht
      exact ⟨q, List.mem_cons_self _ _, by simp [maxKey]⟩
    · obtain ⟨p, hp, hpm⟩ := ih ht
      rcases le_total (maxKey t) q.1 with hle | hle

      · exact ⟨q, List.mem_cons_self _ _, (max_eq_left hle).symm⟩
      · refine ⟨p, List.mem_cons_of_mem _ hp, ?_⟩
        rw [hpm, ← maxKey]
        exact (max_eq_right hle).symm

theorem keys_nodup_inj {α β : Type} {l : List (α × β)}
    (h : (akeys l).Nodup) :
    ∀ x ∈ l, ∀ y ∈ l, x.1 = y.1 → x = y := by
  induction l with
  | nil => intro x hx; simp at hx
  | cons p t ih =>
    rw [akeys, List.map_cons, List.nodup_cons] at h
    intro x hx y hy hxy
    rcases List.mem_cons.mp hx with hx1 | hx2 <;>
      rcases List.mem_cons.mp hy with hy1 | hy2
    · rw [hx1, hy1]
    · exfalso
      apply h.1
      rw [← akeys]
      have : y.1 ∈ akeys t := List.mem_map_of_mem Prod.fst hy2
      rw [hx1] at hxy
      rw [hxy]
      exact this
    · exfalso
      apply h.1
      rw [← akeys]
      have : x.1 ∈ akeys t := List.mem_map_of_mem Prod.fst hx2
      rw [hy1] at hxy
      rw [← hxy]
      exact this
    · exact ih h.2 x hx2 y hy2 hxy

theorem not_mem_werase (sid : Nat) (w : List Nat) : sid ∉ werase sid w := by
  intro h
  have := List.mem_filter.mp h
  simp at this

theorem mem_werase_of_ne {x sid : Nat} {w : List Nat} (hx : x ∈ w) (hne : x ≠ sid) :
    x ∈ werase sid w := by
  exact List.mem_filter.mpr ⟨hx, by simpa using hne⟩

theorem isSome_alookup_aupdate {α β : Type} [DecidableEq α] (k : α) (f : β → β)
    (l : List (α × β)) :
    (alookup k (aupdate k f l)).isSome = (alookup k l).isSome := by
  rw [alookup_aupdate_self]
  cases alookup k l <;> rfl

/-! ### Registry invariant lemmas -/

theorem registryInv_empty : RegistryInv SMState.empty := by
  constructor
  · exact List.nodup_nil
  · intro p hp
    simp [SMState.empty] at hp

theorem new_id_not_mem {st : SMState} :
    (if st.sessions_cache = [] then 1 else maxKey st.sessions_cache + 1) ∉
      akeys st.sessions_cache := by
  by_cases hc : st.sessions_cache = []
  · rw [if_pos hc, hc]
    simp [akeys]
  · rw [if_neg hc]
    intro hmem
    obtain ⟨p, hp, hpk⟩ := List.mem_map.mp hmem
    have := le_maxKey hp
    omega

theorem registryInv_add (saveOk : Bool) (now : String) {st : SMState}
    (h : RegistryInv st) (ch : String) :
    RegistryInv (add_session saveOk now st ch).1 := by
  rw [add_session]
  cases hch : alookup ch st.channel_map with
  | some existing => exact h
  | none =>
    have hmain :
        RegistryInv
          { st with
            sessions_cache :=
              st.sessions_cache ++
                [((if st.sessions_cache = [] then 1 else maxKey st.sessions_cache + 1),
                  ⟨(if st.sessions_cache = [] then 1 else maxKey st.sessions_cache + 1),
                   ch, now, "active", none⟩)]
            channel_map :=
              st.channel_map ++
                [(ch, (if st.sessions_cache = [] then 1 else maxKey st.sessions_cache + 1))] } := by
      constructor
      · rw [akeys, List.map_append]
        refine List.Nodup.append h.1 (List.nodup_singleton _) ?_
        intro x hx hx'
        simp only [List.map_cons, List.map_nil, List.mem_singleton] at hx'
        rw [hx'] at hx
        exact new_id_not_mem hx
      · intro p hp
        rcases List.mem_append.mp hp with hold | hnew
        · exact alookup_append_of_some (h.2 p hold)
        · simp only [List.mem_singleton] at hnew
          rw [hnew]
          rw [alookup_append_of_none hch]
          exact alookup_cons_self _ _ _
    by_cases hsave : saveOk
    · simpa [hsave] using hmain
    · simpa [hsave] using hmain

theorem registryInv_remove (saveOk : Bool) {st : SMState} (h : RegistryInv st)
    (sid : Nat) : RegistryInv (remove_session saveOk st sid).1 := by
  rw [remove_session]
  cases hsid : alookup sid st.sessions_cache with
  | none => exact h
  | some info =>
    by_cases hsave : saveOk
    · simp only [hsave, if_pos]
      constructor
      · exact List.Nodup.sublist (akeys_aerase_sublist sid st.sessions_cache) h.1
      · intro p hp
        obtain ⟨hpmem, hpne⟩ := mem_of_mem_aerase hp
        have hchne : info.channel_id ≠ p.2.channel_id := by
          intro hcheq
          have h1 : alookup p.2.channel_id st.channel_map = some p.1 := h.2 p hpmem
          have h2 : alookup info.channel_id st.channel_map = some sid :=
            h.2 (sid, info) (mem_of_alookup_eq_some hsid)
          rw [hcheq] at h2
          rw [h1] at h2
          injection h2 with h3
          exact hpne h3
        rw [alookup_aerase_ne _ hchne]
        exact h.2 p hpmem
    · simpa [hsave] using h

theorem registryInv_applyOp (now : String) {st : SMState} (h : RegistryInv st)
    (op : RegistryOp) : RegistryInv (applyOp now st op) := by
  cases op with
  | addOp ch saveOk => exact registryInv_add saveOk now h ch
  | removeOp sid saveOk => exact registryInv_remove saveOk h sid

theorem registryInv_foldl (now : String) (ops : List RegistryOp) :
    ∀ (st : SMState), RegistryInv st → RegistryInv (ops.foldl (applyOp now) st) := by
  induction ops with
  | nil => intro st h; exact h
  | cons op rest ih =>
    intro st h
    rw [List.foldl_cons]
    exact ih _ (registryInv_applyOp now h op)

theorem registryInv_runOps (now : String) (ops : List RegistryOp) :
    RegistryInv (runOps now ops) :=
  registryInv_foldl now ops SMState.empty registryInv_empty

theorem channels_nodup {st : SMState} (h : RegistryInv st) :
    (st.sessions_cache.map (fun p => p.2.channel_id)).Nodup := by
  have hnd : st.sessions_cache.Nodup := List.Nodup.of_map Prod.fst h.1
  refine List.Nodup.map_on ?_ hnd
  intro x hx y hy hxy
  have h1 : alookup x.2.channel_id st.channel_map = some x.1 := h.2 x hx
  have h2 : alookup y.2.channel_id st.channel_map = some y.1 := h.2 y hy
  rw [hxy] at h1
  rw [h1] at h2
  injection h2 with h3
  exact keys_nodup_inj h.1 x hx y hy h3

theorem add_session_duplicate {st : SMState} {ch : String} {s : Nat}
    (saveOk : Bool) (now : String) (h : alookup ch st.channel_map = some s) :
    add_session saveOk now st ch = (st, .duplicateChannel ch s) := by
  rw [add_session, h]

/-! ### Save / load lemmas -/

theorem saveImage_cons (p : Nat × SessionInfo) (t : List (Nat × SessionInfo)) :
    saveImage (p :: t) =
      if p.2.status = "active" then (p.1, p.2.channel_id) :: saveImage t
      else saveImage t := by
  rw [saveImage, List.filter_cons]
  by_cases hp : p.2.status = "active"
  · simp [hp, saveImage]
  · simp [hp, saveImage]

theorem alookup_saveImage_none {cache : List (Nat × SessionInfo)} {e : Nat}
    (h : ∀ p ∈ cache, p.1 = e → p.2.status ≠ "active") :
    alookup e (saveImage cache) = none := by
  induction cache with
  | nil => rfl
  | cons p t ih =>
    rw [saveImage_cons]
    by_cases hact : p.2.status = "active"
    · rw [if_pos hact]
      have hne : p.1 ≠ e := fun he => h p (List.mem_cons_self _ _) he hact
      rw [alookup_cons_ne _ _ hne]
      exact ih (fun q hq => h q (List.mem_cons_of_mem _ hq))
    · rw [if_neg hact]
      exact ih (fun q hq => h q (List.mem_cons_of_mem _ hq))

theorem alookup_load_sessions_none {disk : List (Nat × String)} {e : Nat}
    (now : String) (h : alookup e disk = none) :
    alookup e (load_sessions now disk).sessions_cache = none := by
  rw [load_sessions]
  induction disk with
  | nil => rfl
  | cons p t ih =>
    obtain ⟨a, c⟩ := p
    by_cases ha : a = e
    · subst ha
      rw [alookup_cons_self] at h
      exact absurd h (by simp)
    · rw [alookup_cons_ne _ _ ha] at h
      rw [List.map_cons]
      rw [alookup_cons_ne _ _ ha]
      exact ih h

/-! ### TmuxManager lemmas -/

theorem is_exists_absent {st : TmuxState} {sid : Nat} (h : sid ∉ st.world) :
    is_claude_session_exists st sid =
      ({ st with cache := aupdate sid markStopped st.cache }, false) := by
  rw [is_claude_session_exists, if_neg h]

theorem is_exists_present {st : TmuxState} {sid : Nat} (h : sid ∈ st.world) :
    is_claude_session_exists st sid = (st, true) := by
  rw [is_claude_session_exists, if_pos h]

theorem create_fail {env : TmuxEnv} {a : Nat} {st : TmuxState} {sid : Nat}
    {wd opts : String} (hw : sid ∉ st.world) (hc : env.createOk a = false) :
    create_claude_session env a st sid wd opts =
      ({ st with cache := aupdate sid markStopped st.cache }, false) := by
  rw [create_claude_session, is_exists_absent hw]
  simp [hc]

theorem kill_fst {env : TmuxEnv} {st : TmuxState} {sid : Nat}
    (h : env.killOk = true ∨ sid ∉ st.world) :
    (kill_claude_session env st sid).1 =
      ⟨aupdate sid markStopped st.cache,
       if sid ∈ st.world then werase sid st.world else st.world⟩ := by
  by_cases hw : sid ∈ st.world
  · have hk : env.killOk = true := h.resolve_right (fun hn => hn hw)
    rw [kill_claude_session, is_exists_present hw]
    simp [hk, hw]
  · rw [kill_claude_session, is_exists_absent hw]
    simp [hw]

theorem recoverLoop_count_le (env : TmuxEnv) (sid : Nat) :
    ∀ (rem a : Nat) (st : TmuxState), (recoverLoop env sid a rem st).2.2 ≤ rem := by
  intro rem
  induction rem with
  | zero => intro a st; exact Nat.le_refl 0
  | succ n ih =>
    intro a st
    rw [recoverLoop]
    cases halookup : alookup sid st.cache with
    | none => simp
    | some info =>
      dsimp only
      repeat' split
      all_goals
        first
        | exact Nat.succ_le_succ (Nat.zero_le n)
        | exact Nat.succ_le_succ (ih _ _)

theorem recoverLoop_noCache {env : TmuxEnv} {sid : Nat} (a n : Nat)
    (st : TmuxState) (h : alookup sid st.cache = none) :
    recoverLoop env sid a (n + 1) st = (st, .noCache, 0) := by
  rw [recoverLoop, h]

theorem recoverLoop_all_fail {env : TmuxEnv} {sid : Nat}
    (hcr : ∀ k, env.createOk k = false) :
    ∀ (rem a : Nat) (st : TmuxState), sid ∉ st.world →
      (alookup sid st.cache).isSome = true →
      ∃ st', recoverLoop env sid a rem st = (st', .exhausted, rem) ∧
        sid ∉ st'.world ∧ (alookup sid st'.cache).isSome = true := by
  intro rem
  induction rem with
  | zero => intro a st hw hc; exact ⟨st, rfl, hw, hc⟩
  | succ n ih =>
    intro a st hw hc
    obtain ⟨info, hinfo⟩ := Option.isSome_iff_exists.mp hc
    have hcf :=
      @create_fail env a st sid (info.work_dir.getD RECOVER_FALLBACK_WORK_DIR)
        (info.options.getD DEFAULT_CLAUDE_OPTIONS) hw (hcr a)
    have hw' : sid ∉ ({ st with cache := aupdate sid markStopped st.cache } : TmuxState).world :=
      hw
    have hc' :
        (alookup sid
          ({ st with cache := aupdate sid markStopped st.cache } : TmuxState).cache).isSome =
          true := by
      dsimp only
      rw [isSome_alookup_aupdate]
      exact hc
    obtain ⟨st', heq, hw'', hc''⟩ := ih (a + 1) _ hw' hc'
    refine ⟨st', ?_, hw'', hc''⟩
    rw [recoverLoop, hinfo]
    dsimp only
    rw [hcf]
    simp [heq]

/-! ### AutoRecoverySystem lemmas -/

theorem ar_recover_fail_step {env : Nat → TmuxEnv} {k : Nat} {wd opts : String}
    {st : ARState} {sid : Nat}
    (hw : sid ∉ st.tmux.world)
    (hcr : (env k).createOk k = false)
    (hcount : (alookup sid st.recovery_counts).getD 0 + 1 ≤ MAX_RETRY_ATTEMPTS) :
    ar_recover_session env k wd opts st sid =
      (arFailTail
        { st with
          tmux :=
            ⟨aupdate sid markStopped (aupdate sid markStopped st.tmux.cache),
             st.tmux.world⟩ }
        sid ((alookup sid st.recovery_counts).getD 0 + 1)
        (some "Failed to create new tmux session"),
       false) := by
  have hw2 :
      sid ∉ ({ st.tmux with cache := aupdate sid markStopped st.tmux.cache } : TmuxState).world :=
    hw
  rw [ar_recover_session]
  dsimp only
  rw [if_neg (Nat.not_lt.mpr hcount)]
  rw [is_exists_absent hw]
  dsimp only
  rw [if_neg Bool.false_ne_true]
  rw [create_fail hw2 hcr]
  dsimp only
  rw [if_neg Bool.false_ne_true]

/-- arFailTail written as a single record update, with the
notification condition lifted outside. -/
theorem arFailTail_eq (st : ARState) (sid ac : Nat) (err : Option String) :
    arFailTail st sid ac err =
      { st with
        recovery_history := st.recovery_history ++ [⟨sid, ac, false, err⟩]
        recovery_counts := aset sid ac st.recovery_counts
        notifications :=
          if MAX_RETRY_ATTEMPTS ≤ ac then
            st.notifications ++ [.recoveryFailure sid err]
          else st.notifications } := by
  rw [arFailTail]
  by_cases h : MAX_RETRY_ATTEMPTS ≤ ac
  · rw [if_pos h, if_pos h]
  · rw [if_neg h, if_neg h]

/-- Facts about one failing AutoRecoverySystem.recover_session
invocation: with no live tmux session and a failing creation, the tmux
world is untouched, the cached entry is stop-marked twice, the counter
becomes c+1, one failed RecoveryAttempt is appended, a failure
notification goes out exactly when c+1 reaches MAX_RETRY_ATTEMPTS, and
the call returns false. -/
theorem ar_fail_step_facts {env : Nat → TmuxEnv} {k : Nat} {wd opts : String}
    {st : ARState} {sid c : Nat}
    (hw : sid ∉ st.tmux.world)
    (hcr : (env k).createOk k = false)
    (hgd : (alookup sid st.recovery_counts).getD 0 = c)
    (hc3 : c + 1 ≤ MAX_RETRY_ATTEMPTS) :
    (ar_recover_session env k wd opts st sid).1.tmux.world = st.tmux.world ∧
    alookup sid (ar_recover_session env k wd opts st sid).1.tmux.cache =
      ((alookup sid st.tmux.cache).map markStopped).map markStopped ∧
    alookup sid (ar_recover_session env k wd opts st sid).1.recovery_counts =
      some (c + 1) ∧
    (ar_recover_session env k wd opts st sid).1.recovery_history =
      st.recovery_history ++
        [⟨sid, c + 1, false, some "Failed to create new tmux session"⟩] ∧
    (ar_recover_session env k wd opts st sid).1.notifications =
      (if MAX_RETRY_ATTEMPTS ≤ c + 1 then
        st.notifications ++
          [.recoveryFailure sid (some "Failed to create new tmux session")]
      else st.notifications) ∧
    (ar_recover_session env k wd opts st sid).2 = false := by
  have E := @ar_recover_fail_step env k wd opts st sid hw hcr (by rw [hgd]; exact hc3)
  rw [hgd] at E
  rw [arFailTail_eq] at E
  rw [E]
  refine ⟨rfl, ?_, ?_, rfl, rfl, rfl⟩
  · dsimp only
    rw [alookup_aupdate_self, alookup_aupdate_self]
  · dsimp only
    rw [alookup_aset_self]

/-! ### Claim theorems -/

/-- Claim C1 (code bug): when the persistence step fails during
add_session on the empty registry, the raised error is the save-failure
SessionManagerError, but the in-memory caches keep the freshly inserted
entry - the state is NOT rolled back to the pre-mutation snapshot,
because _save_sessions wraps the failure in SessionManagerError and
add_session re-raises that kind before its rollback handler runs. -/
theorem C1_add_save_failure_keeps_mutation :
    (add_session false "t0" SMState.empty "chan-A").2 = AddResult.saveFailed ∧
    (add_session false "t0" SMState.empty "chan-A").1 ≠ SMState.empty ∧
    alookup 1 (add_session false "t0" SMState.empty "chan-A").1.sessions_cache =
      some ⟨1, "chan-A", "t0", "active", none⟩ ∧
    alookup "chan-A" (add_session false "t0" SMState.empty "chan-A").1.channel_map =
      some 1 := by
  decide

/-- Claim C3: for every attempt n with n ≥ 1 the backoff equals
min(1 * 2^(n-1), 60) seconds, is monotone non-decreasing, never exceeds
60, and takes the values 1, 2, 4 and 60 at attempts 1, 2, 3 and 7. -/
theorem C3_backoff_formula (n : Nat) (h : 1 ≤ n) :
    get_backoff_time n = min (1 * 2 ^ (n - 1)) 60 ∧
    get_backoff_time n ≤ get_backoff_time (n + 1) ∧
    get_backoff_time n ≤ 60 ∧
    get_backoff_time 1 = 1 ∧ get_backoff_time 2 = 2 ∧
    get_backoff_time 3 = 4 ∧ get_backoff_time 7 = 60 := by
  refine ⟨rfl, ?_, ?_, rfl, rfl, rfl, rfl⟩
  · rw [get_backoff_time, get_backoff_time]
    refine min_le_min ?_ (le_refl _)
    exact Nat.mul_le_mul (Nat.le_refl _) (Nat.pow_le_pow_right (by norm_num) (by omega))
  · exact min_le_right _ _

/-- Claim C3 witness at n = 3. -/
theorem C3_backoff_formula_witness :
    get_backoff_time 3 = min (1 * 2 ^ (3 - 1)) 60 ∧
    get_backoff_time 3 ≤ get_backoff_time (3 + 1) ∧
    get_backoff_time 3 ≤ 60 ∧
    get_backoff_time 1 = 1 ∧ get_backoff_time 2 = 2 ∧
    get_backoff_time 3 = 4 ∧ get_backoff_time 7 = 60 :=
  C3_backoff_formula 3 (by decide)

/-- Claim C4: add on an unmapped channel returns max existing session id
plus one (1 on the empty registry); in the spec scenario, removing
session 2 from ids {1,2,3} and adding a new channel yields id 4. -/
theorem C4_add_assigns_max_plus_one (st : SMState) (ch now : String)
    (h : alookup ch st.channel_map = none) :
    (∃ id, (add_session true now st ch).2 = AddResult.ok id ∧
      (st.sessions_cache = [] → id = 1) ∧
      (∀ p ∈ st.sessions_cache, p.1 < id) ∧
      (st.sessions_cache ≠ [] → ∃ p ∈ st.sessions_cache, id = p.1 + 1)) ∧
    (add_session true "t"
        (remove_session true
          (add_session true "t"
            (add_session true "t"
              (add_session true "t" SMState.empty "chan-A").1 "chan-B").1 "chan-C").1
          2).1 "chan-X").2 = AddResult.ok 4 := by
  constructor
  · refine ⟨if st.sessions_cache = [] then 1 else maxKey st.sessions_cache + 1,
      ?_, ?_, ?_, ?_⟩
    · rw [add_session, h]
      rfl
    · intro hc
      rw [if_pos hc]
    · intro p hp
      have hne : st.sessions_cache ≠ [] := by
        intro he
        rw [he] at hp
        simp at hp
      rw [if_neg hne]
      exact Nat.lt_succ_of_le (le_maxKey hp)
    · intro hne
      rw [if_neg hne]
      obtain ⟨p, hp, hpm⟩ := maxKey_mem hne
      exact ⟨p, hp, by rw [hpm]⟩
  · decide

/-- Claim C4 witness on the empty registry. -/
theorem C4_add_assigns_max_plus_one_witness :
    (∃ id, (add_session true "t" SMState.empty "c").2 = AddResult.ok id ∧
      (SMState.empty.sessions_cache = [] → id = 1) ∧
      (∀ p ∈ SMState.empty.sessions_cache, p.1 < id) ∧
      (SMState.empty.sessions_cache ≠ [] →
        ∃ p ∈ SMState.empty.sessions_cache, id = p.1 + 1)) ∧
    (add_session true "t"
        (remove_session true
          (add_session true "t"
            (add_session true "t"
              (add_session true "t" SMState.empty "chan-A").1 "chan-B").1 "chan-C").1
          2).1 "chan-X").2 = AddResult.ok 4 :=
  C4_add_assigns_max_plus_one SMState.empty "c" "t" (by decide)

/-- Claim C6 counterexample: remove_session on session id 1, absent from
the empty registry, returns false - refuting the claim that remove on an
absent id returns true. -/
theorem C6_remove_absent_counterexample :
    alookup 1 SMState.empty.sessions_cache = none ∧
    (remove_session true SMState.empty 1).2 = false ∧
    (remove_session true SMState.empty 1).2 ≠ true := by
  decide

/-- Claim C6 (amended): kill_claude_session on an absent tmux session
returns true (idempotent), while remove_session on a registry id that is
absent returns false. -/
theorem C6_kill_true_remove_false (env : TmuxEnv) (tst : TmuxState) (sid : Nat)
    (st : SMState) (sid2 : Nat) (saveOk : Bool)
    (hw : sid ∉ tst.world) (hr : alookup sid2 st.sessions_cache = none) :
    (kill_claude_session env tst sid).2 = true ∧
    (remove_session saveOk st sid2).2 = false := by
  constructor
  · rw [kill_claude_session, is_exists_absent hw]
    dsimp only
    rw [if_pos rfl]
  · rw [remove_session, hr]

/-- Claim C6 witness: kill of absent session 5 and remove of absent
session 5. -/
theorem C6_kill_true_remove_false_witness :
    (kill_claude_session ⟨true, fun _ => false, fun _ => false⟩ ⟨[], []⟩ 5).2 = true ∧
    (remove_session true SMState.empty 5).2 = false :=
  C6_kill_true_remove_false ⟨true, fun _ => false, fun _ => false⟩ ⟨[], []⟩ 5
    SMState.empty 5 true (by decide) (by decide)

/-- Claim C7: after every finite history of add/remove calls from the
empty registry, session ids are pairwise distinct, channel ids are
pairwise distinct, and add on an already-mapped channel returns the
duplicate-channel error with the state unchanged. -/
theorem C7_registry_uniqueness (now : String) (ops : List RegistryOp) :
    (akeys (runOps now ops).sessions_cache).Nodup ∧
    ((runOps now ops).sessions_cache.map (fun p => p.2.channel_id)).Nodup ∧
    ∀ (ch : String) (s : Nat) (saveOk : Bool) (now2 : String),
      alookup ch (runOps now ops).channel_map = some s →
      add_session saveOk now2 (runOps now ops) ch =
        (runOps now ops, AddResult.duplicateChannel ch s) := by
  have h := registryInv_runOps now ops
  exact ⟨h.1, channels_nodup h,
    fun ch s saveOk now2 hm => add_session_duplicate saveOk now2 hm⟩

/-- Claim C7 witness: after adding channels a and b and removing session
1, both uniqueness properties hold, and re-adding channel b yields the
duplicate error and leaves the state unchanged. -/
theorem C7_registry_uniqueness_witness :
    (akeys (runOps "t" [.addOp "a" true, .addOp "b" true, .removeOp 1 true]).sessions_cache).Nodup ∧
    ((runOps "t" [.addOp "a" true, .addOp "b" true, .removeOp 1 true]).sessions_cache.map
      (fun p => p.2.channel_id)).Nodup ∧
    add_session true "u" (runOps "t" [.addOp "a" true, .addOp "b" true, .removeOp 1 true]) "b" =
      (runOps "t" [.addOp "a" true, .addOp "b" true, .removeOp 1 true],
       AddResult.duplicateChannel "b" 2) :=
  ⟨(C7_registry_uniqueness "t" [.addOp "a" true, .addOp "b" true, .removeOp 1 true]).1,
   (C7_registry_uniqueness "t" [.addOp "a" true, .addOp "b" true, .removeOp 1 true]).2.1,
   (C7_registry_uniqueness "t" [.addOp "a" true, .addOp "b" true, .removeOp 1 true]).2.2
     "b" 2 true "u" (by decide)⟩

/-- Claim C8: recover_session for a session id with no cache entry
returns false without invoking the creation step even once. -/
theorem C8_recover_without_cache_fails_fast (env : TmuxEnv) (st : TmuxState)
    (sid R : Nat) (h : alookup sid st.cache = none) :
    (tmux_recover_session env st sid R).2.1 = false ∧
    (tmux_recover_session env st sid R).2.2 = 0 := by
  have hkc : alookup sid (kill_claude_session env st sid).1.cache = none := by
    by_cases hw : sid ∈ st.world
    · rw [kill_claude_session, is_exists_present hw]
      dsimp only
      rw [if_neg (by decide : ¬(true = false))]
      by_cases hk : env.killOk
      · rw [if_pos hk]
        dsimp only
        rw [alookup_aupdate_self, h]
        rfl
      · rw [if_neg hk]
        exact h
    · rw [kill_claude_session, is_exists_absent hw]
      dsimp only
      rw [if_pos rfl]
      dsimp only
      rw [alookup_aupdate_self, h]
      rfl
  cases R with
  | zero => exact ⟨rfl, rfl⟩
  | succ n =>
    rw [tmux_recover_session]
    dsimp only
    rw [recoverLoop_noCache 1 n ((kill_claude_session env st sid).1) hkc]
    exact ⟨rfl, rfl⟩

/-- Claim C8 witness: session 3 is live in tmux but has no cache entry;
recovery with 2 retries returns false with zero creation attempts. -/
theorem C8_recover_without_cache_fails_fast_witness :
    (tmux_recover_session ⟨true, fun _ => false, fun _ => false⟩ ⟨[], [3]⟩ 3 2).2.1 = false ∧
    (tmux_recover_session ⟨true, fun _ => false, fun _ => false⟩ ⟨[], [3]⟩ 3 2).2.2 = 0 :=
  C8_recover_without_cache_fails_fast ⟨true, fun _ => false, fun _ => false⟩ ⟨[], [3]⟩ 3 2
    (by decide)

/-- Claim C9: recover_session performs its best-effort kill before the
cache-entry check, so for a live session with no cache entry the recovery
returns false yet has killed the live tmux session - the external state is
changed on this error path. -/
theorem C9_recover_kills_before_cache_check (env : TmuxEnv) (st : TmuxState)
    (sid R : Nat) (hw : sid ∈ st.world) (hc : alookup sid st.cache = none)
    (hk : env.killOk = true) :
    (tmux_recover_session env st sid R).1.world = werase sid st.world ∧
    sid ∉ (tmux_recover_session env st sid R).1.world ∧
    (tmux_recover_session env st sid R).1.world ≠ st.world ∧
    (tmux_recover_session env st sid R).2.1 = false := by
  have hkeq : (kill_claude_session env st sid).1 =
      ⟨aupdate sid markStopped st.cache, werase sid st.world⟩ := by
    rw [kill_fst (Or.inl hk), if_pos hw]
  have hkc : alookup sid (kill_claude_session env st sid).1.cache = none := by
    rw [hkeq]
    dsimp only
    rw [alookup_aupdate_self, hc]
    rfl
  have hwne : werase sid st.world ≠ st.world := by
    intro he
    have hnm := not_mem_werase sid st.world
    rw [he] at hnm
    exact hnm hw
  cases R with
  | zero =>
    have heq : (tmux_recover_session env st sid 0).1.world =
        (kill_claude_session env st sid).1.world := rfl
    refine ⟨?_, ?_, ?_, rfl⟩
    · rw [heq, hkeq]
    · rw [heq, hkeq]
      exact not_mem_werase sid st.world
    · rw [heq, hkeq]
      exact hwne
  | succ n =>
    have heq : tmux_recover_session env st sid (n + 1) =
        ((kill_claude_session env st sid).1, false, 0) := by
      rw [tmux_recover_session]
      dsimp only
      rw [recoverLoop_noCache 1 n ((kill_claude_session env st sid).1) hkc]
    rw [heq, hkeq]
    exact ⟨rfl, not_mem_werase sid st.world, hwne, rfl⟩

/-- Claim C9 witness: session 4 is live, uncached; recovery with 3
retries kills it and fails. -/
theorem C9_recover_kills_before_cache_check_witness :
    (tmux_recover_session ⟨true, fun _ => false, fun _ => false⟩ ⟨[], [4]⟩ 4 3).1.world =
      werase 4 [4] ∧
    4 ∉ (tmux_recover_session ⟨true, fun _ => false, fun _ => false⟩ ⟨[], [4]⟩ 4 3).1.world ∧
    (tmux_recover_session ⟨true, fun _ => false, fun _ => false⟩ ⟨[], [4]⟩ 4 3).1.world ≠ [4] ∧
    (tmux_recover_session ⟨true, fun _ => false, fun _ => false⟩ ⟨[], [4]⟩ 4 3).2.1 = false :=
  C9_recover_kills_before_cache_check ⟨true, fun _ => false, fun _ => false⟩ ⟨[], [4]⟩ 4 3
    (by decide) (by decide) rfl

/-- Claim C2: when every creation attempt fails and a cache entry exists,
recover_session with max_retries = R makes exactly R creation attempts
(so at most R, never an (R+1)th), returns false, and marks the cached
entry status recovery_failed with recovery_attempts = R. -/
theorem C2_recover_bounded_retries (env : TmuxEnv) (st : TmuxState) (sid R : Nat)
    (_hR : 1 ≤ R)
    (hcr : ∀ k, env.createOk k = false)
    (hkill : env.killOk = true ∨ sid ∉ st.world)
    (hc : (alookup sid st.cache).isSome = true) :
    (tmux_recover_session env st sid R).2.2 = R ∧
    (tmux_recover_session env st sid R).2.2 ≤ R ∧
    (tmux_recover_session env st sid R).2.1 = false ∧
    (∃ i, alookup sid (tmux_recover_session env st sid R).1.cache = some i ∧
      i.status = "recovery_failed" ∧ i.recovery_attempts = R) := by
  have hkw : sid ∉ (kill_claude_session env st sid).1.world := by
    rw [kill_fst hkill]
    dsimp only
    by_cases hw : sid ∈ st.world
    · rw [if_pos hw]
      exact not_mem_werase sid st.world
    · rw [if_neg hw]
      exact hw
  have hkc : (alookup sid (kill_claude_session env st sid).1.cache).isSome = true := by
    rw [kill_fst hkill]
    dsimp only
    rw [isSome_alookup_aupdate]
    exact hc
  obtain ⟨st', heq, hw', hc'⟩ :=
    recoverLoop_all_fail hcr R 1 ((kill_claude_session env st sid).1) hkw hkc
  have hfinal : tmux_recover_session env st sid R =
      ({ st' with
         cache :=
           aupdate sid
             (fun i => { i with status := "recovery_failed", recovery_attempts := R })
             st'.cache },
       false, R) := by
    rw [tmux_recover_session]
    dsimp only
    rw [heq]
  refine ⟨by rw [hfinal], by rw [hfinal], by rw [hfinal], ?_⟩
  obtain ⟨i0, hi0⟩ := Option.isSome_iff_exists.mp hc'
  refine ⟨{ i0 with status := "recovery_failed", recovery_attempts := R }, ?_, rfl, rfl⟩
  rw [hfinal]
  dsimp only
  rw [alookup_aupdate_self, hi0]
  rfl

/-- Claim C2 witness: session 1 has a cache entry, tmux has no live
session, every creation fails; with 2 retries the recovery makes exactly
2 attempts, fails, and marks the entry recovery_failed with
recovery_attempts 2. -/
theorem C2_recover_bounded_retries_witness :
    (tmux_recover_session ⟨true, fun _ => false, fun _ => false⟩
      ⟨[(1, ⟨"active", none, none, 0, 0, 0⟩)], []⟩ 1 2).2.2 = 2 ∧
    (tmux_recover_session ⟨true, fun _ => false, fun _ => false⟩
      ⟨[(1, ⟨"active", none, none, 0, 0, 0⟩)], []⟩ 1 2).2.2 ≤ 2 ∧
    (tmux_recover_session ⟨true, fun _ => false, fun _ => false⟩
      ⟨[(1, ⟨"active", none, none, 0, 0, 0⟩)], []⟩ 1 2).2.1 = false ∧
    (∃ i, alookup 1 (tmux_recover_session ⟨true, fun _ => false, fun _ => false⟩
      ⟨[(1, ⟨"active", none, none, 0, 0, 0⟩)], []⟩ 1 2).1.cache = some i ∧
      i.status = "recovery_failed" ∧ i.recovery_attempts = 2) :=
  C2_recover_bounded_retries ⟨true, fun _ => false, fun _ => false⟩
    ⟨[(1, ⟨"active", none, none, 0, 0, 0⟩)], []⟩ 1 2 (by decide) (fun k => rfl)
    (Or.inl rfl) (by decide)

/-- Claim C10: a save persists only entries with status "active", so a
session marked "error" by update_session_health(id, false) is dropped
from the on-disk mapping by the next successful add or remove, and a
registry reloaded from that mapping no longer contains it, even though
remove was never called on it. -/
theorem C10_error_sessions_dropped_on_next_save (st : SMState) (e : Nat)
    (info : SessionInfo) (now now2 now3 ch : String) (sid2 : Nat)
    (he : alookup e st.sessions_cache = some info)
    (hch : alookup ch (update_session_health now st e false).channel_map = none)
    (hs2 : (alookup sid2 (update_session_health now st e false).sessions_cache).isSome
      = true) :
    alookup e (add_session true now2 (update_session_health now st e false) ch).1.disk
      = none ∧
    alookup e (load_sessions now3
      (add_session true now2 (update_session_health now st e false) ch).1.disk).sessions_cache
      = none ∧
    alookup e (remove_session true (update_session_health now st e false) sid2).1.disk
      = none ∧
    alookup e (load_sessions now3
      (remove_session true (update_session_health now st e false) sid2).1.disk).sessions_cache
      = none := by
  have hA : ∀ p ∈ (update_session_health now st e false).sessions_cache,
      p.1 = e → p.2.status ≠ "active" := by
    intro p hp hpe
    have hp' : p ∈ aupdate e
        (fun i =>
          { i with
            last_health_check := some now
            status := if false then "active" else "error" })
        st.sessions_cache := hp
    rcases mem_aupdate hp' with ⟨hne, _⟩ | ⟨_, v, hv, hpv⟩
    · exact absurd hpe hne
    · rw [hpv]
      exact (by decide : ("error" : String) ≠ "active")
  have he1 : alookup e (update_session_health now st e false).sessions_cache =
      some ⟨info.session_id, info.channel_id, info.created_at, "error", some now⟩ := by
    have h0 :
        alookup e
            (aupdate e
              (fun i =>
                { i with
                  last_health_check := some now
                  status := if false then "active" else "error" })
              st.sessions_cache) =
          (alookup e st.sessions_cache).map
            (fun i =>
              { i with
                last_health_check := some now
                status := if false then "active" else "error" }) :=
      alookup_aupdate_self e _ st.sessions_cache
    rw [he] at h0
    exact h0
  have hmem1 : (e, (⟨info.session_id, info.channel_id, info.created_at, "error", some now⟩ :
      SessionInfo)) ∈ (update_session_health now st e false).sessions_cache :=
    mem_of_alookup_eq_some he1
  have hnempty : (update_session_health now st e false).sessions_cache ≠ [] :=
    List.ne_nil_of_mem hmem1
  have hemax : e ≤ maxKey (update_session_health now st e false).sessions_cache :=
    le_maxKey hmem1
  constructor
  · -- disk after add
    rw [add_session, hch]
    dsimp only
    rw [if_neg hnempty]
    refine alookup_saveImage_none ?_
    intro p hp hpe
    rcases List.mem_append.mp hp with h1 | h2
    · exact hA p h1 hpe
    · rw [List.mem_singleton] at h2
      rw [h2] at hpe
      dsimp only at hpe
      omega
  constructor
  · -- reload after add
    refine alookup_load_sessions_none now3 ?_
    rw [add_session, hch]
    dsimp only
    rw [if_neg hnempty]
    refine alookup_saveImage_none ?_
    intro p hp hpe
    rcases List.mem_append.mp hp with h1 | h2
    · exact hA p h1 hpe
    · rw [List.mem_singleton] at h2
      rw [h2] at hpe
      dsimp only at hpe
      omega
  · -- remove then its reload
    obtain ⟨info2, hinfo2⟩ := Option.isSome_iff_exists.mp hs2
    have hrd : alookup e (remove_session true (update_session_health now st e false)
        sid2).1.disk = none := by
      rw [remove_session, hinfo2]
      dsimp only
      refine alookup_saveImage_none ?_
      intro p hp hpe
      exact hA p (mem_of_mem_aerase hp).1 hpe
    exact ⟨hrd, alookup_load_sessions_none now3 hrd⟩

/-- Claim C10 witness: registry {1 -> "a", 2 -> "b"}; session 2 is marked
unhealthy, then channel "c" is added and session 1 is removed; session 2
disappears from the persisted mapping and from a reloaded registry in
both cases. -/
theorem C10_error_sessions_dropped_on_next_save_witness :
    alookup 2 (add_session true "t2" (update_session_health "t1"
      ⟨[(1, ⟨1, "a", "t0", "active", none⟩), (2, ⟨2, "b", "t0", "active", none⟩)],
       [("a", 1), ("b", 2)], [(1, "a"), (2, "b")]⟩ 2 false) "c").1.disk = none ∧
    alookup 2 (load_sessions "t3"
      (add_session true "t2" (update_session_health "t1"
        ⟨[(1, ⟨1, "a", "t0", "active", none⟩), (2, ⟨2, "b", "t0", "active", none⟩)],
         [("a", 1), ("b", 2)], [(1, "a"), (2, "b")]⟩ 2 false) "c").1.disk).sessions_cache
      = none ∧
    alookup 2 (remove_session true (update_session_health "t1"
      ⟨[(1, ⟨1, "a", "t0", "active", none⟩), (2, ⟨2, "b", "t0", "active", none⟩)],
       [("a", 1), ("b", 2)], [(1, "a"), (2, "b")]⟩ 2 false) 1).1.disk = none ∧
    alookup 2 (load_sessions "t3"
      (remove_session true (update_session_health "t1"
        ⟨[(1, ⟨1, "a", "t0", "active", none⟩), (2, ⟨2, "b", "t0", "active", none⟩)],
         [("a", 1), ("b", 2)], [(1, "a"), (2, "b")]⟩ 2 false) 1).1.disk).sessions_cache
      = none :=
  C10_error_sessions_dropped_on_next_save
    ⟨[(1, ⟨1, "a", "t0", "active", none⟩), (2, ⟨2, "b", "t0", "active", none⟩)],
     [("a", 1), ("b", 2)], [(1, "a"), (2, "b")]⟩
    2 ⟨2, "b", "t0", "active", none⟩ "t1" "t2" "t3" "c" 1 (by decide) (by decide) (by decide)

/-- Claim C5 counterexample: session 2 is cached by the tmux manager,
every creation fails across 3 consecutive auto-recovery invocations with
MAX_RETRY_ATTEMPTS = 3; exactly 3 RecoveryAttempt records and exactly one
failure notification are produced as claimed, but the cached status ends
as "stopped", NOT "recovery_failed" - AutoRecoverySystem.recover_session
never assigns that status. -/
theorem C5_status_counterexample :
    (ar_recover_chain3 (fun _ => ⟨true, fun _ => false, fun _ => false⟩) "/w" "-o"
      ⟨⟨[(2, ⟨"active", none, none, 0, 0, 0⟩)], []⟩, SMState.empty, [], [], []⟩
      2).recovery_history.length = 3 ∧
    countFailureNotifications
      (ar_recover_chain3 (fun _ => ⟨true, fun _ => false, fun _ => false⟩) "/w" "-o"
        ⟨⟨[(2, ⟨"active", none, none, 0, 0, 0⟩)], []⟩, SMState.empty, [], [], []⟩
        2).notifications = 1 ∧
    (alookup 2
      (ar_recover_chain3 (fun _ => ⟨true, fun _ => false, fun _ => false⟩) "/w" "-o"
        ⟨⟨[(2, ⟨"active", none, none, 0, 0, 0⟩)], []⟩, SMState.empty, [], [], []⟩
        2).tmux.cache).map TmuxInfo.status = some "stopped" ∧
    (alookup 2
      (ar_recover_chain3 (fun _ => ⟨true, fun _ => false, fun _ => false⟩) "/w" "-o"
        ⟨⟨[(2, ⟨"active", none, none, 0, 0, 0⟩)], []⟩, SMState.empty, [], [], []⟩
        2).tmux.cache).map TmuxInfo.status ≠ some "recovery_failed" := by
  decide

/-- Claim C5 (amended): 3 consecutive auto-recovery invocations for one
session, counter starting at 0, no live tmux session and every creation
failing, append exactly 3 RecoveryAttempt records (attempts 1, 2, 3, all
failed), emit exactly one failure notification (only at the 3rd attempt),
leave the recovery count at 3 = MAX_RETRY_ATTEMPTS, and leave the cached
tmux entry with status "stopped" (not "recovery_failed", which this code
path never assigns). -/
theorem C5_exhaustion_behavior (env : Nat → TmuxEnv) (wd opts : String)
    (st : ARState) (sid : Nat)
    (hw : sid ∉ st.tmux.world)
    (hcr : ∀ k j, (env k).createOk j = false)
    (hcnt : alookup sid st.recovery_counts = none)
    (hpresent : (alookup sid st.tmux.cache).isSome = true) :
    (ar_recover_chain3 env wd opts st sid).recovery_history =
      st.recovery_history ++
        [⟨sid, 1, false, some "Failed to create new tmux session"⟩,
         ⟨sid, 2, false, some "Failed to create new tmux session"⟩,
         ⟨sid, 3, false, some "Failed to create new tmux session"⟩] ∧
    (ar_recover_chain3 env wd opts st sid).notifications =
      st.notifications ++
        [.recoveryFailure sid (some "Failed to create new tmux session")] ∧
    alookup sid (ar_recover_chain3 env wd opts st sid).recovery_counts = some 3 ∧
    (alookup sid (ar_recover_chain3 env wd opts st sid).tmux.cache).map
      TmuxInfo.status = some "stopped" := by
  obtain ⟨a1, b1, c1, d1, e1, f1⟩ :=
    @ar_fail_step_facts env 1 wd opts st sid 0 hw (hcr 1 1) (by rw [hcnt]; rfl)
      (by decide)
  have hw1 : sid ∉ (ar_recover_session env 1 wd opts st sid).1.tmux.world := by
    rw [a1]
    exact hw
  have hgd1 :
      (alookup sid (ar_recover_session env 1 wd opts st sid).1.recovery_counts).getD 0
        = 1 := by
    rw [c1]
    rfl
  obtain ⟨a2, b2, c2, d2, e2, f2⟩ :=
    @ar_fail_step_facts env 2 wd opts (ar_recover_session env 1 wd opts st sid).1
      sid 1 hw1 (hcr 2 2) hgd1 (by decide)
  have hw2 : sid ∉ (ar_recover_session env 2 wd opts
      (ar_recover_session env 1 wd opts st sid).1 sid).1.tmux.world := by
    rw [a2]
    exact hw1
  have hgd2 :
      (alookup sid (ar_recover_session env 2 wd opts
        (ar_recover_session env 1 wd opts st sid).1 sid).1.recovery_counts).getD 0
        = 2 := by
    rw [c2]
    rfl
  obtain ⟨a3, b3, c3, d3, e3, f3⟩ :=
    @ar_fail_step_facts env 3 wd opts
      (ar_recover_session env 2 wd opts
        (ar_recover_session env 1 wd opts st sid).1 sid).1
      sid 2 hw2 (hcr 3 3) hgd2 (by decide)
  have hchain : ar_recover_chain3 env wd opts st sid =
      (ar_recover_session env 3 wd opts
        (ar_recover_session env 2 wd opts
          (ar_recover_session env 1 wd opts st sid).1 sid).1 sid).1 := rfl
  refine ⟨?_, ?_, ?_, ?_⟩
  · rw [hchain, d3, d2, d1]
    simp [List.append_assoc]
  · rw [hchain, e3]
    rw [if_pos (show MAX_RETRY_ATTEMPTS ≤ 2 + 1 by decide)]
    rw [e2, if_neg (show ¬MAX_RETRY_ATTEMPTS ≤ 1 + 1 by decide)]
    rw [e1, if_neg (show ¬MAX_RETRY_ATTEMPTS ≤ 0 + 1 by decide)]
  · rw [hchain, c3]
  · obtain ⟨i0, hi0⟩ := Option.isSome_iff_exists.mp hpresent
    rw [hchain, b3, b2, b1, hi0]
    rfl

/-- Claim C5 witness: the amended behavior at a concrete state (session
2 cached, counter fresh, every creation failing). -/
theorem C5_exhaustion_behavior_witness :
    (ar_recover_chain3 (fun _ => ⟨true, fun _ => false, fun _ => false⟩) "/w" "-o"
      ⟨⟨[(2, ⟨"active", none, none, 0, 0, 0⟩)], []⟩, SMState.empty, [], [], []⟩
      2).recovery_history =
      [] ++
        [⟨2, 1, false, some "Failed to create new tmux session"⟩,
         ⟨2, 2, false, some "Failed to create new tmux session"⟩,
         ⟨2, 3, false, some "Failed to create new tmux session"⟩] ∧
    (ar_recover_chain3 (fun _ => ⟨true, fun _ => false, fun _ => false⟩) "/w" "-o"
      ⟨⟨[(2, ⟨"active", none, none, 0, 0, 0⟩)], []⟩, SMState.empty, [], [], []⟩
      2).notifications =
      [] ++ [.recoveryFailure 2 (some "Failed to create new tmux session")] ∧
    alookup 2 (ar_recover_chain3 (fun _ => ⟨true, fun _ => false, fun _ => false⟩)
      "/w" "-o"
      ⟨⟨[(2, ⟨"active", none, none, 0, 0, 0⟩)], []⟩, SMState.empty, [], [], []⟩
      2).recovery_counts = some 3 ∧
    (alookup 2 (ar_recover_chain3 (fun _ => ⟨true, fun _ => false, fun _ => false⟩)
      "/w" "-o"
      ⟨⟨[(2, ⟨"active", none, none, 0, 0, 0⟩)], []⟩, SMState.empty, [], [], []⟩
      2).tmux.cache).map TmuxInfo.status = some "stopped" :=
  C5_exhaustion_behavior (fun _ => ⟨true, fun _ => false, fun _ => false⟩) "/w" "-o"
    ⟨⟨[(2, ⟨"active", none, none, 0, 0, 0⟩)], []⟩, SMState.empty, [], [], []⟩ 2
    (by decide) (fun k j => rfl) (by decide) (by decide)

end Bridge
